import Mathlib

/-!
Verification of the address-book helpers in `saleor/account/utils.py` and of the
catalogue-scope operations of discounts (vouchers / sales) described by the spec.

Addresses are value records with structural equality (the code deduplicates via
`get_or_create(**address.as_data())`).  A user's address book is the list of address
values related to the user; the two default pointers are optional address values.
Django persistence (`user.save(update_fields=...)`) is modelled by returning the
updated user state.
-/

/-- An address value record.  Equality is structural (field-by-field), matching
`address.as_data()` based deduplication in the code. -/
structure Address where
  first_name : String
  last_name : String
  street_address_1 : String
  city : String
  country : String
deriving DecidableEq

/-- The `AddressType` enumeration from `saleor/checkout` with members BILLING and SHIPPING. -/
inductive AddressType where
  | billing
  | shipping
deriving DecidableEq

/-- A user: own name fields, the owned address book, and the two optional default
address pointers (`default_billing_address`, `default_shipping_address`). -/
structure User where
  first_name : String
  last_name : String
  addresses : List Address
  default_billing_address : Option Address
  default_shipping_address : Option Address
deriving DecidableEq

/-- The default pointer of a user selected by an `AddressType`. -/
def User.defaultOf (user : User) (t : AddressType) : Option Address :=
  match t with
  | AddressType.billing => user.default_billing_address
  | AddressType.shipping => user.default_shipping_address

/-- Embedding of `user.addresses.get_or_create(**address.as_data())`: look up a book entry
with exactly the given field values and create one when absent.  Under structural equality
the entry found or created is the address value itself. -/
def getOrCreate (book : List Address) (a : Address) : List Address :=
  if a ∈ book then book else book ++ [a]

/-- Embedding of `user.addresses.add(a)` (Django many-to-many add): a no-op when the
relation already holds the address, otherwise the address joins the book. -/
def addToBook (book : List Address) (a : Address) : List Address :=
  if a ∈ book then book else book ++ [a]

/-- Embedding of `set_user_default_billing_address(user, address)`: assign the pointer and
persist that field. -/
def set_user_default_billing_address (user : User) (address : Address) : User :=
  { user with default_billing_address := some address }

/-- Embedding of `set_user_default_shipping_address(user, address)`: assign the pointer and
persist that field. -/
def set_user_default_shipping_address (user : User) (address : Address) : User :=
  { user with default_shipping_address := some address }

/-- Embedding of `store_user_address(user, address, address_type)`.  The code first
replaces the address by `obfuscate_address(address)` (comment `DEMO: obfuscate user
address`); `obfuscate_address` is imported from `saleor/core/demo_obfuscators.py`, a module
that is not among the sources, so it is taken here as an explicit function parameter
`obf`.  Then the (obfuscated) address is inserted by `get_or_create`, and it becomes the
default of the given type exactly when that default was unset (`if not
user.default_billing_address` tests `None`). -/
def store_user_address (obf : Address → Address) (user : User) (address : Address)
    (address_type : AddressType) : User :=
  let address := obf address
  let user := { user with addresses := getOrCreate user.addresses address }
  match address_type with
  | AddressType.billing =>
      if user.default_billing_address.isNone then
        set_user_default_billing_address user address
      else user
  | AddressType.shipping =>
      if user.default_shipping_address.isNone then
        set_user_default_shipping_address user address
      else user

/-- Embedding of `change_user_default_address(user, address, address_type)`: when a default
of the given type exists it is added to the address book, then the new address is installed
as the default via the corresponding setter. -/
def change_user_default_address (user : User) (address : Address)
    (address_type : AddressType) : User :=
  match address_type with
  | AddressType.billing =>
      let user :=
        match user.default_billing_address with
        | some prev => { user with addresses := addToBook user.addresses prev }
        | none => user
      set_user_default_billing_address user address
  | AddressType.shipping =>
      let user :=
        match user.default_shipping_address with
        | some prev => { user with addresses := addToBook user.addresses prev }
        | none => user
      set_user_default_shipping_address user address

/-- Embedding of `get_user_first_name(user)`: the user's own first name when truthy
(non-empty), else the default billing address's first name when that address exists, else
`None`. -/
def get_user_first_name (user : User) : Option String :=
  if user.first_name ≠ "" then some user.first_name
  else
    match user.default_billing_address with
    | some a => some a.first_name
    | none => none

/-- Embedding of `get_user_last_name(user)`: the user's own last name when truthy
(non-empty), else the default billing address's last name when that address exists, else
`None`. -/
def get_user_last_name (user : User) : Option String :=
  if user.last_name ≠ "" then some user.last_name
  else
    match user.default_billing_address with
    | some a => some a.last_name
    | none => none

/-- The spec's `resolveDisplayName(user)`: the pair of the two independently resolved name
components, realised in the code by `get_user_first_name` and `get_user_last_name`. -/
def resolveDisplayName (user : User) : Option String × Option String :=
  (get_user_first_name user, get_user_last_name user)

/-- The spec invariant that each set default pointer references an address present in the
same user's address book. -/
def defaultsInBook (user : User) : Bool :=
  user.default_billing_address.all (fun a => decide (a ∈ user.addresses)) &&
  user.default_shipping_address.all (fun a => decide (a ∈ user.addresses))

/-- Modelled from the spec: the catalogue-scope state of a discount (voucher or sale).
The resolver code behind `voucherCataloguesAdd` / `voucherCataloguesRemove` is not among
the sources (the tests in `src/tests/api/test_discount.py` only assert that the read-only
demo gate rejects the mutations), so the scope follows the spec: three independent sets of
stable catalogue-entity identifiers (`products`, `collections`, `categories`), each held
here as a duplicate-free list. -/
structure Discount where
  products : List Nat
  collections : List Nat
  categories : List Nat
deriving DecidableEq

/-- Modelled from the spec: add each supplied identifier to a scope set; an
already-present identifier is silently absorbed (set-union semantics). -/
def scopeAdd (s : List Nat) (xs : List Nat) : List Nat :=
  xs.foldl (fun acc x => if x ∈ acc then acc else acc ++ [x]) s

/-- Modelled from the spec: remove each supplied identifier from a scope set when present;
removing an absent identifier is a no-op. -/
def scopeRemove (s : List Nat) (xs : List Nat) : List Nat :=
  xs.foldl (fun acc x => acc.filter (fun y => y ≠ x)) s

/-- Modelled from the spec: `addToScope(discount, products, collections, categories)`. -/
def addToScope (d : Discount) (ps cs gs : List Nat) : Discount :=
  { products := scopeAdd d.products ps
    collections := scopeAdd d.collections cs
    categories := scopeAdd d.categories gs }

/-- Modelled from the spec: `removeFromScope(discount, products, collections, categories)`. -/
def removeFromScope (d : Discount) (ps cs gs : List Nat) : Discount :=
  { products := scopeRemove d.products ps
    collections := scopeRemove d.collections cs
    categories := scopeRemove d.categories gs }

/-! Concrete sample data used by witnesses and counterexamples. -/

/-- A sample address. -/
def addrA : Address :=
  { first_name := "John", last_name := "Doe", street_address_1 := "Main St",
    city := "X", country := "US" }

/-- A second sample address, structurally different from `addrA`. -/
def addrB : Address :=
  { first_name := "Jane", last_name := "Roe", street_address_1 := "Side St",
    city := "Y", country := "US" }

/-- A sample non-identity obfuscator: blank out the personal name fields. -/
def obfDemo (a : Address) : Address :=
  { a with first_name := "Demo", last_name := "User" }

/-- A user with an empty book and no defaults. -/
def userEmpty : User :=
  { first_name := "", last_name := "", addresses := [],
    default_billing_address := none, default_shipping_address := none }

/-- A user with their own first name, an empty last name, and a default billing address. -/
def userMixed : User :=
  { first_name := "John", last_name := "", addresses := [addrB],
    default_billing_address := some addrB, default_shipping_address := none }

/-- A user whose billing default is `addrA` and whose book already holds it. -/
def userAnn : User :=
  { first_name := "Ann", last_name := "Lee", addresses := [addrA],
    default_billing_address := some addrA, default_shipping_address := none }

/-- A user whose billing default dangles: it is set but absent from the book. -/
def userDangling : User :=
  { first_name := "", last_name := "", addresses := [],
    default_billing_address := some addrA, default_shipping_address := none }

/-- A sample discount scope. -/
def voucherDemo : Discount :=
  { products := [1], collections := [2], categories := [3] }

/-! Helper lemmas about the book operations. -/

/-- The address passed to `get_or_create` is in the resulting book. -/
theorem getOrCreate_mem_self (book : List Address) (a : Address) : a ∈ getOrCreate book a := by
  unfold getOrCreate
  split
  · assumption
  · simp

/-- `get_or_create` never removes book entries. -/
theorem getOrCreate_mem_mono {book : List Address} {x : Address} (a : Address)
    (h : x ∈ book) : x ∈ getOrCreate book a := by
  unfold getOrCreate
  split
  · exact h
  · exact List.mem_append_left _ h

/-- `get_or_create` with an address already in the book reuses the entry. -/
theorem getOrCreate_of_mem {book : List Address} {a : Address} (h : a ∈ book) :
    getOrCreate book a = book := by
  unfold getOrCreate
  simp [h]

/-- Membership in the book after `get_or_create`. -/
theorem mem_getOrCreate_iff {book : List Address} {a x : Address} :
    x ∈ getOrCreate book a ↔ x ∈ book ∨ x = a := by
  unfold getOrCreate
  split
  · rename_i h
    constructor
    · exact Or.inl
    · rintro (hx | rfl) <;> [exact hx; exact h]
  · simp

/-- `get_or_create` preserves freedom from duplicates. -/
theorem getOrCreate_nodup {book : List Address} (a : Address) (h : book.Nodup) :
    (getOrCreate book a).Nodup := by
  unfold getOrCreate
  split
  · exact h
  · rename_i hna
    simp [List.nodup_append, h, hna]

/-- The many-to-many `add` coincides with `get_or_create` on the value model. -/
theorem addToBook_eq_getOrCreate (book : List Address) (a : Address) :
    addToBook book a = getOrCreate book a := rfl

/-! Characterisation lemmas for `store_user_address` and `change_user_default_address`. -/

/-- The book after `store_user_address` is the book after `get_or_create` of the
obfuscated address. -/
theorem store_addresses (obf : Address → Address) (u : User) (a : Address)
    (t : AddressType) :
    (store_user_address obf u a t).addresses = getOrCreate u.addresses (obf a) := by
  cases t <;> simp only [store_user_address] <;> split <;> rfl

/-- The billing default after `store_user_address`: set to the obfuscated address when it
was unset, untouched otherwise; storing with type SHIPPING never touches it. -/
theorem store_default_billing (obf : Address → Address) (u : User) (a : Address) :
    (store_user_address obf u a AddressType.billing).default_billing_address
      = (if u.default_billing_address.isNone then some (obf a)
         else u.default_billing_address) ∧
    (store_user_address obf u a AddressType.shipping).default_billing_address
      = u.default_billing_address := by
  cases h : u.default_billing_address <;>
    simp [store_user_address, set_user_default_billing_address,
      set_user_default_shipping_address, h] <;>
    cases h2 : u.default_shipping_address <;> simp

/-- The shipping default after `store_user_address`: set to the obfuscated address when it
was unset, untouched otherwise; storing with type BILLING never touches it. -/
theorem store_default_shipping (obf : Address → Address) (u : User) (a : Address) :
    (store_user_address obf u a AddressType.shipping).default_shipping_address
      = (if u.default_shipping_address.isNone then some (obf a)
         else u.default_shipping_address) ∧
    (store_user_address obf u a AddressType.billing).default_shipping_address
      = u.default_shipping_address := by
  cases h : u.default_shipping_address <;>
    simp [store_user_address, set_user_default_billing_address,
      set_user_default_shipping_address, h] <;>
    cases h2 : u.default_billing_address <;> simp

/-- The name fields of the user are untouched by `store_user_address`. -/
theorem store_names (obf : Address → Address) (u : User) (a : Address) (t : AddressType) :
    (store_user_address obf u a t).first_name = u.first_name ∧
    (store_user_address obf u a t).last_name = u.last_name := by
  cases t <;> simp only [store_user_address] <;> split <;> exact ⟨rfl, rfl⟩

/-- The book after `change_user_default_address`: the previous default of the selected
type, when set, is added; nothing else changes. -/
theorem change_addresses (u : User) (a : Address) (t : AddressType) :
    (change_user_default_address u a t).addresses
      = (match u.defaultOf t with
         | some prev => addToBook u.addresses prev
         | none => u.addresses) := by
  cases t <;> cases h : u.default_billing_address <;> cases h2 : u.default_shipping_address <;>
    simp [change_user_default_address, set_user_default_billing_address,
      set_user_default_shipping_address, User.defaultOf, h, h2]

/-- The selected default pointer after `change_user_default_address` is the new address. -/
theorem change_defaultOf_self (u : User) (a : Address) (t : AddressType) :
    (change_user_default_address u a t).defaultOf t = some a := by
  cases t <;> cases h : u.default_billing_address <;> cases h2 : u.default_shipping_address <;>
    simp [change_user_default_address, set_user_default_billing_address,
      set_user_default_shipping_address, User.defaultOf, h, h2]

/-- The unselected default pointer is untouched by `change_user_default_address`. -/
theorem change_defaultOf_other (u : User) (a : Address) :
    (change_user_default_address u a AddressType.billing).default_shipping_address
      = u.default_shipping_address ∧
    (change_user_default_address u a AddressType.shipping).default_billing_address
      = u.default_billing_address := by
  cases h : u.default_billing_address <;> cases h2 : u.default_shipping_address <;>
    simp [change_user_default_address, set_user_default_billing_address,
      set_user_default_shipping_address, h, h2]

/-- Unfolding of the defaults-in-book invariant into memberships. -/
theorem defaultsInBook_iff (u : User) :
    defaultsInBook u = true ↔
      (∀ a, u.default_billing_address = some a → a ∈ u.addresses) ∧
      (∀ a, u.default_shipping_address = some a → a ∈ u.addresses) := by
  cases h : u.default_billing_address <;> cases h2 : u.default_shipping_address <;>
    simp [defaultsInBook, h, h2]

/-! Claim theorems. -/

/-- C6: `set_user_default_billing_address` (resp. `set_user_default_shipping_address`)
overwrites only the corresponding default pointer: the other pointer, the address book and
the name fields are unchanged, and calling the setter with the current default leaves the
whole user state unchanged (observable no-op). -/
theorem set_default_address_frame (u : User) (a : Address) :
    ((set_user_default_billing_address u a).default_billing_address = some a ∧
      (set_user_default_billing_address u a).default_shipping_address
        = u.default_shipping_address ∧
      (set_user_default_billing_address u a).addresses = u.addresses ∧
      (set_user_default_billing_address u a).first_name = u.first_name ∧
      (set_user_default_billing_address u a).last_name = u.last_name ∧
      (u.default_billing_address = some a → set_user_default_billing_address u a = u)) ∧
    ((set_user_default_shipping_address u a).default_shipping_address = some a ∧
      (set_user_default_shipping_address u a).default_billing_address
        = u.default_billing_address ∧
      (set_user_default_shipping_address u a).addresses = u.addresses ∧
      (set_user_default_shipping_address u a).first_name = u.first_name ∧
      (set_user_default_shipping_address u a).last_name = u.last_name ∧
      (u.default_shipping_address = some a → set_user_default_shipping_address u a = u)) := by
  refine ⟨⟨rfl, rfl, rfl, rfl, rfl, ?_⟩, ⟨rfl, rfl, rfl, rfl, rfl, ?_⟩⟩ <;>
    intro h <;> cases u <;>
    simp_all [set_user_default_billing_address, set_user_default_shipping_address]

/-- Witness for C6 at a concrete user whose billing default is already `addrA`. -/
theorem set_default_address_frame_witness :
    set_user_default_billing_address userAnn addrA = userAnn :=
  (set_default_address_frame userAnn addrA).1.2.2.2.2.2 rfl

/-- C4: the display-name components are resolved independently: each equals the user's own
field when that field is non-empty, otherwise the corresponding field of the default
billing address when one exists, otherwise `none`; in particular a mixed result (first
name from the user, last name from the address) occurs for some user. -/
theorem display_name_per_field_fallback :
    (∀ u : User,
      (u.first_name ≠ "" → get_user_first_name u = some u.first_name) ∧
      (u.first_name = "" → ∀ a, u.default_billing_address = some a →
        get_user_first_name u = some a.first_name) ∧
      (u.first_name = "" → u.default_billing_address = none →
        get_user_first_name u = none) ∧
      (u.last_name ≠ "" → get_user_last_name u = some u.last_name) ∧
      (u.last_name = "" → ∀ a, u.default_billing_address = some a →
        get_user_last_name u = some a.last_name) ∧
      (u.last_name = "" → u.default_billing_address = none →
        get_user_last_name u = none) ∧
      resolveDisplayName u = (get_user_first_name u, get_user_last_name u)) ∧
    (∃ u : User, ∃ a : Address, u.default_billing_address = some a ∧
      u.first_name ≠ "" ∧ u.last_name = "" ∧ some a.last_name ≠ some u.last_name ∧
      resolveDisplayName u = (some u.first_name, some a.last_name)) := by
  constructor
  · intro u
    refine ⟨fun h => ?_, fun h a ha => ?_, fun h ha => ?_,
      fun h => ?_, fun h a ha => ?_, fun h ha => ?_, rfl⟩ <;>
      simp_all [get_user_first_name, get_user_last_name]
  · exact ⟨userMixed, addrB, rfl, by decide, rfl, by decide, by decide⟩

/-- Witness for C4: the per-field fallback evaluated at a concrete mixed user. -/
theorem display_name_per_field_fallback_witness :
    get_user_first_name userMixed = some "John" :=
  (display_name_per_field_fallback.1 userMixed).1 (by decide)

/-- The default of the selected type after `store_user_address` is the obfuscated address
when no default of that type was set. -/
theorem store_defaultOf_of_none (obf : Address → Address) (u : User) (a : Address)
    (t : AddressType) (h : u.defaultOf t = none) :
    (store_user_address obf u a t).defaultOf t = some (obf a) := by
  cases t <;> simp only [User.defaultOf] at h ⊢
  · rw [(store_default_billing obf u a).1, h]
    rfl
  · rw [(store_default_shipping obf u a).1, h]
    rfl

/-- After `store_user_address` the default of the selected type is always set. -/
theorem store_defaultOf_isSome (obf : Address → Address) (u : User) (a : Address)
    (t : AddressType) : ((store_user_address obf u a t).defaultOf t).isSome := by
  cases t <;> simp only [User.defaultOf]
  · rw [(store_default_billing obf u a).1]
    rcases h : u.default_billing_address with _ | b <;> simp
  · rw [(store_default_shipping obf u a).1]
    rcases h : u.default_shipping_address with _ | b <;> simp

/-- Storing an address whose obfuscation is already in the book, for a user whose default
of the selected type is set, changes nothing. -/
theorem store_user_address_of_mem_of_isSome (obf : Address → Address) (u : User)
    (a : Address) (t : AddressType) (hmem : obf a ∈ u.addresses)
    (hsome : (u.defaultOf t).isSome) :
    store_user_address obf u a t = u := by
  cases t <;> simp only [User.defaultOf] at hsome <;>
    simp only [store_user_address, getOrCreate_of_mem hmem]
  · rcases hs : u.default_billing_address with _ | b
    · rw [hs] at hsome
      simp at hsome
    · simp [hs]
      rw [← hs]
  · rcases hs : u.default_shipping_address with _ | b
    · rw [hs] at hsome
      simp at hsome
    · simp [hs]
      rw [← hs]

/-- C1 (counterexample): with an obfuscator that blanks the name fields, storing `addrA`
for a user with no billing default neither inserts `addrA` itself into the book nor makes
the billing default structurally equal to `addrA`, refuting the claim as stated. -/
theorem store_user_address_original_not_stored :
    userEmpty.defaultOf AddressType.billing = none ∧
    ¬ (addrA ∈ (store_user_address obfDemo userEmpty addrA AddressType.billing).addresses ∧
       (store_user_address obfDemo userEmpty addrA AddressType.billing).defaultOf
          AddressType.billing = some addrA) := by
  decide

/-- C1 (amended): for every user with no default of type `t`, `store_user_address` inserts
the obfuscated address `obf a` into the book (reusing a structurally identical entry if
one exists) and sets the type-`t` default to an address structurally equal to `obf a` —
structurally equal to `a` itself only when the obfuscator leaves `a` unchanged. -/
theorem store_user_address_sets_obfuscated_default (obf : Address → Address) (u : User)
    (a : Address) (t : AddressType) (h : u.defaultOf t = none) :
    obf a ∈ (store_user_address obf u a t).addresses ∧
    (store_user_address obf u a t).defaultOf t = some (obf a) ∧
    (obf a ∈ u.addresses → (store_user_address obf u a t).addresses = u.addresses) := by
  refine ⟨?_, store_defaultOf_of_none obf u a t h, fun hm => ?_⟩
  · rw [store_addresses]
    exact getOrCreate_mem_self _ _
  · rw [store_addresses]
    exact getOrCreate_of_mem hm

/-- Witness for the amended C1 at a concrete user with no billing default. -/
theorem store_user_address_sets_obfuscated_default_witness :
    obfDemo addrA
        ∈ (store_user_address obfDemo userEmpty addrA AddressType.billing).addresses ∧
    (store_user_address obfDemo userEmpty addrA AddressType.billing).defaultOf
        AddressType.billing = some (obfDemo addrA) ∧
    (obfDemo addrA ∈ userEmpty.addresses →
      (store_user_address obfDemo userEmpty addrA AddressType.billing).addresses
        = userEmpty.addresses) :=
  store_user_address_sets_obfuscated_default obfDemo userEmpty addrA AddressType.billing rfl

/-- C9: `store_user_address` applies the obfuscator before deduplication and storage: the
book update is `get_or_create` of `obf a`, the default installed when none existed is
`obf a`, and when the obfuscator alters `a` (and `a` was not already in the book) the
original `a` itself is not inserted. -/
theorem store_user_address_obfuscates_first (obf : Address → Address) (u : User)
    (a : Address) (t : AddressType) :
    (store_user_address obf u a t).addresses = getOrCreate u.addresses (obf a) ∧
    (u.defaultOf t = none → (store_user_address obf u a t).defaultOf t = some (obf a)) ∧
    (obf a ≠ a → a ∉ u.addresses → a ∉ (store_user_address obf u a t).addresses) := by
  refine ⟨store_addresses obf u a t, store_defaultOf_of_none obf u a t, fun hne hna hmem => ?_⟩
  rw [store_addresses] at hmem
  rcases mem_getOrCreate_iff.mp hmem with h | h
  · exact hna h
  · exact hne h.symm

/-- Witness for C9: the blanking obfuscator alters `addrA`, and indeed only the obfuscated
address reaches the book and the default. -/
theorem store_user_address_obfuscates_first_witness :
    (store_user_address obfDemo userEmpty addrA AddressType.billing).addresses
        = getOrCreate userEmpty.addresses (obfDemo addrA) ∧
    (store_user_address obfDemo userEmpty addrA AddressType.billing).defaultOf
        AddressType.billing = some (obfDemo addrA) ∧
    addrA ∉ (store_user_address obfDemo userEmpty addrA AddressType.billing).addresses :=
  ⟨(store_user_address_obfuscates_first obfDemo userEmpty addrA AddressType.billing).1,
   (store_user_address_obfuscates_first obfDemo userEmpty addrA AddressType.billing).2.1 rfl,
   (store_user_address_obfuscates_first obfDemo userEmpty addrA AddressType.billing).2.2
     (by decide) (by decide)⟩

/-- C2: `store_user_address` is idempotent — a second identical call returns exactly the
state after the first call (same book, both defaults and name fields unchanged) — and it
preserves the book's freedom from structurally identical duplicates. -/
theorem store_user_address_idempotent (obf : Address → Address) (u : User) (a : Address)
    (t : AddressType) :
    store_user_address obf (store_user_address obf u a t) a t
      = store_user_address obf u a t ∧
    (u.addresses.Nodup → (store_user_address obf u a t).addresses.Nodup) := by
  constructor
  · apply store_user_address_of_mem_of_isSome
    · rw [store_addresses]
      exact getOrCreate_mem_self _ _
    · exact store_defaultOf_isSome obf u a t
  · intro h
    rw [store_addresses]
    exact getOrCreate_nodup _ h

/-- Witness for C2 at a concrete user and address. -/
theorem store_user_address_idempotent_witness :
    store_user_address obfDemo (store_user_address obfDemo userEmpty addrA
        AddressType.shipping) addrA AddressType.shipping
      = store_user_address obfDemo userEmpty addrA AddressType.shipping ∧
    (store_user_address obfDemo userEmpty addrA AddressType.shipping).addresses.Nodup :=
  ⟨(store_user_address_idempotent obfDemo userEmpty addrA AddressType.shipping).1,
   (store_user_address_idempotent obfDemo userEmpty addrA AddressType.shipping).2
     (by decide)⟩

/-- C3 (counterexample): when the new address is the current default itself, the old
default ends up installed as the default again, so it is not "present as a non-default
entry"; the claim as stated fails at `A2 = A1`. -/
theorem change_default_self_counterexample :
    userAnn.default_billing_address = some addrA ∧
    ¬ ((change_user_default_address userAnn addrA AddressType.billing).defaultOf
          AddressType.billing = some addrA ∧
       addrA ∈ (change_user_default_address userAnn addrA AddressType.billing).addresses ∧
       ¬ (change_user_default_address userAnn addrA AddressType.billing).defaultOf
          AddressType.billing = some addrA) := by
  decide

/-- C3 (amended): for every user with a default address `a1` of type `t`,
`change_user_default_address(user, a2, t)` sets the type-`t` default to `a2` and keeps
`a1` in the book, and whenever `a2 ≠ a1` the old default `a1` is no longer the type-`t`
default; if no type-`t` default existed, `a2` simply becomes the default.  The operation
is a total function, so no error is raised in either case. -/
theorem change_user_default_address_spec (u : User) (a2 : Address) (t : AddressType) :
    (∀ a1, u.defaultOf t = some a1 →
      (change_user_default_address u a2 t).defaultOf t = some a2 ∧
      a1 ∈ (change_user_default_address u a2 t).addresses ∧
      (a2 ≠ a1 → (change_user_default_address u a2 t).defaultOf t ≠ some a1)) ∧
    (u.defaultOf t = none →
      (change_user_default_address u a2 t).defaultOf t = some a2) := by
  constructor
  · intro a1 h
    refine ⟨change_defaultOf_self u a2 t, ?_, fun hne hc => ?_⟩
    · rw [change_addresses, h]
      show a1 ∈ addToBook u.addresses a1
      rw [addToBook_eq_getOrCreate]
      exact getOrCreate_mem_self _ _
    · rw [change_defaultOf_self] at hc
      exact hne (Option.some.inj hc)
  · intro h
    exact change_defaultOf_self u a2 t

/-- Witness for the amended C3: changing `userAnn`'s billing default to `addrB`. -/
theorem change_user_default_address_spec_witness :
    (change_user_default_address userAnn addrB AddressType.billing).defaultOf
        AddressType.billing = some addrB ∧
    addrA ∈ (change_user_default_address userAnn addrB AddressType.billing).addresses ∧
    (change_user_default_address userAnn addrB AddressType.billing).defaultOf
        AddressType.billing ≠ some addrA :=
  ⟨((change_user_default_address_spec userAnn addrB AddressType.billing).1 addrA rfl).1,
   ((change_user_default_address_spec userAnn addrB AddressType.billing).1 addrA rfl).2.1,
   ((change_user_default_address_spec userAnn addrB AddressType.billing).1 addrA rfl).2.2
     (by decide)⟩

/-- `store_user_address` preserves the defaults-in-book invariant. -/
theorem store_preserves_defaultsInBook (obf : Address → Address) (u : User) (a : Address)
    (t : AddressType) (h : defaultsInBook u = true) :
    defaultsInBook (store_user_address obf u a t) = true := by
  rw [defaultsInBook_iff] at h ⊢
  obtain ⟨hb, hs⟩ := h
  constructor <;> intro x hx <;> rw [store_addresses]
  · cases t
    · rw [(store_default_billing obf u a).1] at hx
      rcases hd : u.default_billing_address with _ | b
      · rw [hd] at hx
        simp at hx
        subst hx
        exact getOrCreate_mem_self _ _
      · rw [hd] at hx
        simp at hx
        subst hx
        exact getOrCreate_mem_mono _ (hb _ hd)
    · rw [(store_default_billing obf u a).2] at hx
      exact getOrCreate_mem_mono _ (hb _ hx)
  · cases t
    · rw [(store_default_shipping obf u a).2] at hx
      exact getOrCreate_mem_mono _ (hs _ hx)
    · rw [(store_default_shipping obf u a).1] at hx
      rcases hd : u.default_shipping_address with _ | b
      · rw [hd] at hx
        simp at hx
        subst hx
        exact getOrCreate_mem_self _ _
      · rw [hd] at hx
        simp at hx
        subst hx
        exact getOrCreate_mem_mono _ (hs _ hd)

/-- `set_user_default_billing_address` preserves the invariant when the address is in the
book. -/
theorem set_billing_preserves_defaultsInBook (u : User) (a : Address)
    (ha : a ∈ u.addresses) (h : defaultsInBook u = true) :
    defaultsInBook (set_user_default_billing_address u a) = true := by
  rw [defaultsInBook_iff] at h ⊢
  obtain ⟨hb, hs⟩ := h
  refine ⟨fun x hx => ?_, fun x hx => ?_⟩
  · simp [set_user_default_billing_address] at hx
    subst hx
    exact ha
  · simp [set_user_default_billing_address] at hx
    exact hs _ hx

/-- `set_user_default_shipping_address` preserves the invariant when the address is in the
book. -/
theorem set_shipping_preserves_defaultsInBook (u : User) (a : Address)
    (ha : a ∈ u.addresses) (h : defaultsInBook u = true) :
    defaultsInBook (set_user_default_shipping_address u a) = true := by
  rw [defaultsInBook_iff] at h ⊢
  obtain ⟨hb, hs⟩ := h
  refine ⟨fun x hx => ?_, fun x hx => ?_⟩
  · simp [set_user_default_shipping_address] at hx
    exact hb _ hx
  · simp [set_user_default_shipping_address] at hx
    subst hx
    exact ha

/-- Book membership is monotone under `change_user_default_address`. -/
theorem change_mem_mono (u : User) (a : Address) (t : AddressType) {x : Address}
    (hx : x ∈ u.addresses) : x ∈ (change_user_default_address u a t).addresses := by
  rw [change_addresses]
  rcases hdt : u.defaultOf t with _ | prev
  · exact hx
  · show x ∈ addToBook u.addresses prev
    rw [addToBook_eq_getOrCreate]
    exact getOrCreate_mem_mono _ hx

/-- `change_user_default_address` preserves the invariant when the new address is in the
book. -/
theorem change_preserves_defaultsInBook (u : User) (a : Address) (t : AddressType)
    (ha : a ∈ u.addresses) (h : defaultsInBook u = true) :
    defaultsInBook (change_user_default_address u a t) = true := by
  rw [defaultsInBook_iff] at h ⊢
  obtain ⟨hb, hs⟩ := h
  cases t
  · refine ⟨fun x hx => ?_, fun x hx => ?_⟩
    · have h1 : (change_user_default_address u a AddressType.billing).default_billing_address
          = some a := change_defaultOf_self u a AddressType.billing
      rw [h1] at hx
      cases hx
      exact change_mem_mono u a AddressType.billing ha
    · have h2 : (change_user_default_address u a AddressType.billing).default_shipping_address
          = u.default_shipping_address := (change_defaultOf_other u a).1
      rw [h2] at hx
      exact change_mem_mono u a AddressType.billing (hs _ hx)
  · refine ⟨fun x hx => ?_, fun x hx => ?_⟩
    · have h2 : (change_user_default_address u a AddressType.shipping).default_billing_address
          = u.default_billing_address := (change_defaultOf_other u a).2
      rw [h2] at hx
      exact change_mem_mono u a AddressType.shipping (hb _ hx)
    · have h1 : (change_user_default_address u a AddressType.shipping).default_shipping_address
          = some a := change_defaultOf_self u a AddressType.shipping
      rw [h1] at hx
      cases hx
      exact change_mem_mono u a AddressType.shipping ha

/-- C5: starting from a user whose set default pointers reference addresses in their own
book, every operation — `store_user_address`, `set_user_default_billing_address`,
`set_user_default_shipping_address` and `change_user_default_address`, the setters under
the caller precondition that the supplied address belongs to the user's book — preserves
the property that each set default pointer references an address present in that same
user's address book. -/
theorem operations_preserve_defaultsInBook :
    (∀ (obf : Address → Address) (u : User) (a : Address) (t : AddressType),
      defaultsInBook u = true → defaultsInBook (store_user_address obf u a t) = true) ∧
    (∀ (u : User) (a : Address), a ∈ u.addresses → defaultsInBook u = true →
      defaultsInBook (set_user_default_billing_address u a) = true) ∧
    (∀ (u : User) (a : Address), a ∈ u.addresses → defaultsInBook u = true →
      defaultsInBook (set_user_default_shipping_address u a) = true) ∧
    (∀ (u : User) (a : Address) (t : AddressType), a ∈ u.addresses →
      defaultsInBook u = true →
      defaultsInBook (change_user_default_address u a t) = true) :=
  ⟨store_preserves_defaultsInBook,
   set_billing_preserves_defaultsInBook,
   set_shipping_preserves_defaultsInBook,
   change_preserves_defaultsInBook⟩

/-- Witness for C5: the invariant survives each operation at concrete inputs. -/
theorem operations_preserve_defaultsInBook_witness :
    defaultsInBook (store_user_address obfDemo userEmpty addrA AddressType.billing)
        = true ∧
    defaultsInBook (set_user_default_billing_address userAnn addrA) = true ∧
    defaultsInBook (set_user_default_shipping_address userAnn addrA) = true ∧
    defaultsInBook (change_user_default_address userAnn addrA AddressType.billing)
        = true :=
  ⟨operations_preserve_defaultsInBook.1 obfDemo userEmpty addrA AddressType.billing
     (by decide),
   operations_preserve_defaultsInBook.2.1 userAnn addrA (by decide) (by decide),
   operations_preserve_defaultsInBook.2.2.1 userAnn addrA (by decide) (by decide),
   operations_preserve_defaultsInBook.2.2.2 userAnn addrA AddressType.billing (by decide)
     (by decide)⟩

/-- C10 (counterexample): when the new address coincides with a previous default that was
absent from the book, `change_user_default_address` does insert it — membership of the
new address in the book changes from false to true, refuting the claim as stated. -/
theorem change_inserts_new_address_counterexample :
    addrA ∉ userDangling.addresses ∧
    addrA ∈ (change_user_default_address userDangling addrA
        AddressType.billing).addresses := by
  decide

/-- C10 (amended): `change_user_default_address` adds only the previous default to the
book — every new book entry is the previous type-`t` default — so for users whose set
defaults lie in their book the book is unchanged entirely, and whenever the new address
differs from the previous type-`t` default its book membership is unchanged. -/
theorem change_user_default_address_book_frame (u : User) (a : Address) (t : AddressType) :
    (∀ x, x ∈ (change_user_default_address u a t).addresses →
      x ∈ u.addresses ∨ u.defaultOf t = some x) ∧
    (defaultsInBook u = true →
      (change_user_default_address u a t).addresses = u.addresses) ∧
    (u.defaultOf t ≠ some a →
      (a ∈ (change_user_default_address u a t).addresses ↔ a ∈ u.addresses)) := by
  refine ⟨fun x hx => ?_, fun h => ?_, fun hne => ?_⟩
  · rw [change_addresses] at hx
    rcases hdt : u.defaultOf t with _ | prev <;> rw [hdt] at hx
    · exact Or.inl hx
    · rw [show (match some prev with
          | some prev => addToBook u.addresses prev
          | none => u.addresses) = addToBook u.addresses prev from rfl,
        addToBook_eq_getOrCreate] at hx
      rcases mem_getOrCreate_iff.mp hx with hm | hm
      · exact Or.inl hm
      · subst hm
        exact Or.inr rfl
  · rw [change_addresses]
    rcases hdt : u.defaultOf t with _ | prev
    · rfl
    · show addToBook u.addresses prev = u.addresses
      rw [addToBook_eq_getOrCreate]
      apply getOrCreate_of_mem
      rw [defaultsInBook_iff] at h
      cases t
      · exact h.1 prev hdt
      · exact h.2 prev hdt
  · rw [change_addresses]
    rcases hdt : u.defaultOf t with _ | prev
    · exact Iff.rfl
    · show a ∈ addToBook u.addresses prev ↔ a ∈ u.addresses
      rw [addToBook_eq_getOrCreate]
      constructor
      · intro hm
        rcases mem_getOrCreate_iff.mp hm with hh | hh
        · exact hh
        · exact absurd (by rw [hdt, hh]) hne
      · exact getOrCreate_mem_mono _

/-- Witness for the amended C10 at a concrete user satisfying the invariant. -/
theorem change_user_default_address_book_frame_witness :
    (change_user_default_address userAnn addrB AddressType.billing).addresses
        = userAnn.addresses ∧
    (addrB ∈ (change_user_default_address userAnn addrB AddressType.billing).addresses
      ↔ addrB ∈ userAnn.addresses) :=
  ⟨(change_user_default_address_book_frame userAnn addrB AddressType.billing).2.1
     (by decide),
   (change_user_default_address_book_frame userAnn addrB AddressType.billing).2.2
     (by decide)⟩

/-- Adding a single identifier to a scope set is insert-if-absent. -/
theorem scopeAdd_single (s : List Nat) (p : Nat) :
    scopeAdd s [p] = if p ∈ s then s else s ++ [p] := rfl

/-- A scope set absorbs an identifier it already contains. -/
theorem scopeAdd_single_of_mem {s : List Nat} {p : Nat} (h : p ∈ s) :
    scopeAdd s [p] = s := by
  rw [scopeAdd_single, if_pos h]

/-- The added identifier is in the resulting scope set. -/
theorem mem_scopeAdd_single (s : List Nat) (p : Nat) : p ∈ scopeAdd s [p] := by
  rw [scopeAdd_single]
  split
  · assumption
  · simp

/-- Removing a single absent identifier leaves the scope set unchanged. -/
theorem scopeRemove_single_of_not_mem {s : List Nat} {p : Nat} (h : p ∉ s) :
    scopeRemove s [p] = s := by
  show s.filter (fun y => y ≠ p) = s
  rw [List.filter_eq_self]
  intro a ha
  simp
  rintro rfl
  exact h ha

/-- C7: adding a product to a discount's scope twice leaves the products set containing
exactly one occurrence of that product — the second call is absorbed wholesale (set-union
semantics) — and `addToScope` with all-empty lists changes nothing. -/
theorem addToScope_set_semantics (d : Discount) (p : Nat) :
    addToScope (addToScope d [p] [] []) [p] [] [] = addToScope d [p] [] [] ∧
    (d.products.Nodup → (addToScope d [p] [] []).products.count p = 1) ∧
    addToScope d [] [] [] = d := by
  refine ⟨?_, fun hn => ?_, rfl⟩
  · simp only [addToScope]
    congr 1
    exact scopeAdd_single_of_mem (mem_scopeAdd_single _ _)
  · show (scopeAdd d.products [p]).count p = 1
    rw [scopeAdd_single]
    split
    · exact List.count_eq_one_of_mem hn (by assumption)
    · rename_i hp
      rw [List.count_append, List.count_eq_zero_of_not_mem hp]
      simp

/-- Witness for C7 at a concrete discount and product identifier. -/
theorem addToScope_set_semantics_witness :
    addToScope (addToScope voucherDemo [7] [] []) [7] [] []
        = addToScope voucherDemo [7] [] [] ∧
    (addToScope voucherDemo [7] [] []).products.count 7 = 1 :=
  ⟨(addToScope_set_semantics voucherDemo 7).1,
   (addToScope_set_semantics voucherDemo 7).2.1 (by decide)⟩

/-- C8: removing a product that a discount's scope never contained leaves all three scope
sets unchanged; removal of an absent entity is a total no-op, never a failure. -/
theorem removeFromScope_absent_noop (d : Discount) (p : Nat) (h : p ∉ d.products) :
    removeFromScope d [p] [] [] = d := by
  cases d with
  | mk ps cs gs =>
    simp only [removeFromScope]
    rw [scopeRemove_single_of_not_mem h]
    exact rfl

/-- Witness for C8: removing the absent product 7 from a concrete discount. -/
theorem removeFromScope_absent_noop_witness :
    removeFromScope voucherDemo [7] [] [] = voucherDemo :=
  removeFromScope_absent_noop voucherDemo 7 (by decide)
